import Mathlib

/-!
# WuKongIM core — shallow embedding and verification

Shallow embedding of the channel reactor (src/internal/server/channel.go),
the channel reactor sub lane (src/unnamed/part_000), the channel-group /
placement manager and replica tick of the cluster package (src/unnamed/part_003),
and the cluster-event manager (src/unnamed/part_003), together with proofs
about the properties of the natural-language specification.

Go machine integers never approach overflow in the modelled operations
(tick counters, log indexes, versions), so they are embedded as `Nat`.
-/

namespace WuKongIM

/-! ## Channel reactor: data model (src/internal/server/channel.go) -/

/-- Per-stage ready state, `readyState` in the source: `processing` blocks
re-dispatch of the stage, `willRetry`/`retryTick` drive time-based back-off. -/
structure ReadyState where
  processing : Bool := false
  willRetry : Bool := false
  retryTick : Nat := 0
deriving Repr, DecidableEq

/-- The channel message-queue cursors (`channelMsgQueue`).  The queue body
itself is external to the claims; only the cursor positions are modelled.
`forwardingIndex` is the extra cursor used by proxy channels. -/
structure ChannelMsgQueue where
  lastIndex : Nat := 0
  payloadDecryptingIndex : Nat := 0
  permissionCheckingIndex : Nat := 0
  storagingIndex : Nat := 0
  sendackingIndex : Nat := 0
  deliveringIndex : Nat := 0
  forwardingIndex : Nat := 0
deriving Repr, DecidableEq

/-- `channelStatus` in the source. -/
inductive ChannelStatus where
  | uninitialized
  | initializing
  | initialized
deriving Repr, DecidableEq

/-- `channelRole` in the source.  `unknown` is the zero value a fresh channel has
before `becomeLeader`/`becomeProxy` runs. -/
inductive ChannelRole where
  | unknown
  | leader
  | proxy
deriving Repr, DecidableEq

/-- The `ChannelAction` tags used by the modelled operations
(`ChannelActionInit`, `ChannelActionSend`, ... in the source). -/
inductive ChannelActionType where
  | actInit
  | actSend
  | actPayloadDecrypt
  | actPermissionCheck
  | actStorage
  | actSendack
  | actDeliver
  | actForward
  | actCheckTag
  | actClose
deriving Repr, DecidableEq

/-- A channel action.  `lo`/`hi` record the (inclusive) message-position range
handed to the action by `ready` — the source passes the messages
`sliceWithSize(lo, hi+1, maxSize)`; the positions are what the claims are
about, so the range is recorded instead of message bodies. -/
structure ChannelAction where
  actionType : ChannelActionType
  lo : Nat := 0
  hi : Nat := 0
  leaderId : Nat := 0
deriving Repr, DecidableEq

/-- The reactor-channel options consumed by channel.go
(`opts.Reactor.Channel.*`). -/
structure ChannelOptions where
  processIntervalTick : Nat
  deadlineTick : Nat
  tagCheckIntervalTick : Nat
deriving Repr, DecidableEq

/-- The `channel` struct of channel.go, restricted to the fields the claims
are about.  The stream list (`streams`) carries its own indexing and is not
referenced by any claim, so it is omitted. -/
structure Channel where
  msgQueue : ChannelMsgQueue := {}
  actions : List ChannelAction := []
  status : ChannelStatus := ChannelStatus.uninitialized
  role : ChannelRole := ChannelRole.unknown
  leaderId : Nat := 0
  receiverTagKey : String := ""
  payloadDecryptState : ReadyState := {}
  permissionCheckState : ReadyState := {}
  storageState : ReadyState := {}
  sendackState : ReadyState := {}
  deliveryState : ReadyState := {}
  forwardState : ReadyState := {}
  initTick : Nat := 0
  forwardTick : Nat := 0
  tagCheckTick : Nat := 0
  idleTick : Nat := 0
  opts : ChannelOptions
  retryTickCount : Nat := 20
deriving Repr, DecidableEq

/-- `newChannel` (channel.go): fresh queue and states, `initTick` starts at
`ProcessIntervalTick`, `retryTickCount` is 20. -/
def newChannel (opts : ChannelOptions) : Channel :=
  { opts := opts
    initTick := opts.processIntervalTick
    retryTickCount := 20 }

/-- `channel.exec`: queue an action for the next `ready`. -/
def Channel.exec (c : Channel) (a : ChannelAction) : Channel :=
  { c with actions := c.actions ++ [a] }

/-- `channel.isInitialized`. -/
def Channel.isInitialized (c : Channel) : Bool :=
  c.status = ChannelStatus.initialized

/-- `channel.hasPayloadUnDecrypt`. -/
def Channel.hasPayloadUnDecrypt (c : Channel) : Bool :=
  if c.payloadDecryptState.processing then false
  else decide (c.msgQueue.payloadDecryptingIndex < c.msgQueue.lastIndex)

/-- `channel.hasPermissionUnCheck`. -/
def Channel.hasPermissionUnCheck (c : Channel) : Bool :=
  if c.permissionCheckState.processing then false
  else decide (c.msgQueue.permissionCheckingIndex < c.msgQueue.payloadDecryptingIndex)

/-- `channel.hasUnstorage`. -/
def Channel.hasUnstorage (c : Channel) : Bool :=
  if c.storageState.processing then false
  else decide (c.msgQueue.storagingIndex < c.msgQueue.permissionCheckingIndex)

/-- `channel.hasSendack`. -/
def Channel.hasSendack (c : Channel) : Bool :=
  if c.sendackState.processing then false
  else decide (c.msgQueue.sendackingIndex < c.msgQueue.storagingIndex)

/-- `channel.hasUnDeliver`. -/
def Channel.hasUnDeliver (c : Channel) : Bool :=
  if c.deliveryState.processing then false
  else decide (c.msgQueue.deliveringIndex < c.msgQueue.storagingIndex)

/-- `channel.hasUnforward`. -/
def Channel.hasUnforward (c : Channel) : Bool :=
  if c.forwardState.processing then false
  else decide (c.msgQueue.forwardingIndex < c.msgQueue.payloadDecryptingIndex)

/-! ## Channel reactor: ready (channel.go `channel.ready`)

The per-stage dispatch blocks of `channel.ready` all have the same shape —
`if c.hasUnX() { c.xState.processing = true; msgs :=
sliceWithSize(downstream+1, upstream+1, maxSize); if len(msgs) > 0 {
c.exec(Action{...}) } }` — so they are embedded through one parametrised
`dispatch`.  `sliceWithSize` is not under src/; per the spec the batch
covers the positions `downstream+1 .. upstream`, which is nonempty exactly
when the gate is open, so the action records that range. -/

/-- The six pipeline stages plus the proxy forward stage. -/
inductive Stage where
  | payloadDecrypt
  | permissionCheck
  | storage
  | sendack
  | deliver
  | forward
deriving Repr, DecidableEq

/-- The ready state of a stage. -/
def Stage.state (st : Stage) (c : Channel) : ReadyState :=
  match st with
  | Stage.payloadDecrypt => c.payloadDecryptState
  | Stage.permissionCheck => c.permissionCheckState
  | Stage.storage => c.storageState
  | Stage.sendack => c.sendackState
  | Stage.deliver => c.deliveryState
  | Stage.forward => c.forwardState

/-- Replace the ready state of a stage. -/
def Stage.setState (st : Stage) (c : Channel) (s : ReadyState) : Channel :=
  match st with
  | Stage.payloadDecrypt => { c with payloadDecryptState := s }
  | Stage.permissionCheck => { c with permissionCheckState := s }
  | Stage.storage => { c with storageState := s }
  | Stage.sendack => { c with sendackState := s }
  | Stage.deliver => { c with deliveryState := s }
  | Stage.forward => { c with forwardState := s }

/-- The downstream cursor a stage advances. -/
def Stage.cursor (st : Stage) (q : ChannelMsgQueue) : Nat :=
  match st with
  | Stage.payloadDecrypt => q.payloadDecryptingIndex
  | Stage.permissionCheck => q.permissionCheckingIndex
  | Stage.storage => q.storagingIndex
  | Stage.sendack => q.sendackingIndex
  | Stage.deliver => q.deliveringIndex
  | Stage.forward => q.forwardingIndex

/-- The upstream cursor bounding a stage's batch, as dispatched by
`channel.ready` (channel.go lines 163–247). -/
def Stage.upstream (st : Stage) (q : ChannelMsgQueue) : Nat :=
  match st with
  | Stage.payloadDecrypt => q.lastIndex
  | Stage.permissionCheck => q.payloadDecryptingIndex
  | Stage.storage => q.permissionCheckingIndex
  | Stage.sendack => q.storagingIndex
  | Stage.deliver => q.storagingIndex
  | Stage.forward => q.payloadDecryptingIndex

/-- Replace the downstream cursor of a stage. -/
def Stage.setCursor (st : Stage) (q : ChannelMsgQueue) (v : Nat) : ChannelMsgQueue :=
  match st with
  | Stage.payloadDecrypt => { q with payloadDecryptingIndex := v }
  | Stage.permissionCheck => { q with permissionCheckingIndex := v }
  | Stage.storage => { q with storagingIndex := v }
  | Stage.sendack => { q with sendackingIndex := v }
  | Stage.deliver => { q with deliveringIndex := v }
  | Stage.forward => { q with forwardingIndex := v }

/-- The action type `channel.ready` dispatches a stage with. -/
def Stage.actionType (st : Stage) : ChannelActionType :=
  match st with
  | Stage.payloadDecrypt => ChannelActionType.actPayloadDecrypt
  | Stage.permissionCheck => ChannelActionType.actPermissionCheck
  | Stage.storage => ChannelActionType.actStorage
  | Stage.sendack => ChannelActionType.actSendack
  | Stage.deliver => ChannelActionType.actDeliver
  | Stage.forward => ChannelActionType.actForward

/-- The action built by a stage's dispatch block: the action tag of the
stage, the position range `downstream cursor + 1 .. upstream cursor`, and —
for the forward stage only — the channel's `leaderId`
(`ChannelAction{ActionType: ChannelActionForward, LeaderId: c.leaderId, …}`). -/
def stageAction (st : Stage) (q : ChannelMsgQueue) (leaderId : Nat) : ChannelAction :=
  { actionType := st.actionType
    lo := st.cursor q + 1
    hi := st.upstream q
    leaderId := match st with | Stage.forward => leaderId | _ => 0 }

/-- The gate of a stage (`hasUnX`). -/
def Channel.stageGate (c : Channel) (st : Stage) : Bool :=
  match st with
  | Stage.payloadDecrypt => c.hasPayloadUnDecrypt
  | Stage.permissionCheck => c.hasPermissionUnCheck
  | Stage.storage => c.hasUnstorage
  | Stage.sendack => c.hasSendack
  | Stage.deliver => c.hasUnDeliver
  | Stage.forward => c.hasUnforward

/-- One dispatch block of `channel.ready`. -/
def Channel.dispatch (c : Channel) (st : Stage) : Channel :=
  if c.stageGate st then
    (st.setState c { st.state c with processing := true }).exec
      (stageAction st c.msgQueue c.leaderId)
  else c

/-- Leader branch of `channel.ready`: permission check, storage, sendack,
deliver — in source order (channel.go lines 179–228). -/
def Channel.readyLeader (c : Channel) : Channel :=
  (((c.dispatch Stage.permissionCheck).dispatch
      Stage.storage).dispatch Stage.sendack).dispatch Stage.deliver

/-- Proxy branch of `channel.ready`: forward to the leader. -/
def Channel.readyProxy (c : Channel) : Channel :=
  c.dispatch Stage.forward

/-- Body of `channel.ready` past its early return, before the action list
is flushed. -/
def Channel.readyBody (c : Channel) : Channel :=
  if !c.isInitialized then
    ({ c with status := ChannelStatus.initializing, initTick := 0 } : Channel).exec
      { actionType := ChannelActionType.actInit }
  else
    let c := c.dispatch Stage.payloadDecrypt
    match c.role with
    | ChannelRole.leader => c.readyLeader
    | ChannelRole.proxy => c.readyProxy
    | ChannelRole.unknown => c

/-- `channel.ready`: while an `Init` is in flight (`status ==
channelStatusInitializing`) return an empty ready without touching the
queued actions; otherwise run the dispatch body, then hand out and clear
the accumulated actions. -/
def Channel.ready (c : Channel) : Channel × List ChannelAction :=
  if !c.isInitialized ∧ c.status = ChannelStatus.initializing then (c, [])
  else
    let c := c.readyBody
    ({ c with actions := [] }, c.actions)

/-! ## Channel reactor: tick (channel.go `channel.tick` / `tickLeader`) -/

/-- One retry block of `channel.tick` for a single stage state. -/
def ReadyState.tickRetry (s : ReadyState) (retryTickCount : Nat) : ReadyState :=
  if s.willRetry then
    if s.retryTick + 1 ≥ retryTickCount then
      { s with willRetry := false, retryTick := 0 }
    else { s with retryTick := s.retryTick + 1 }
  else s

/-- `channel.tickLeader`: tag-check countdown. -/
def Channel.tickLeader (c : Channel) : Channel :=
  if c.tagCheckTick + 1 ≥ c.opts.tagCheckIntervalTick then
    let c := { c with tagCheckTick := 0 }
    if c.receiverTagKey ≠ "" then
      c.exec { actionType := ChannelActionType.actCheckTag }
    else c
  else { c with tagCheckTick := c.tagCheckTick + 1 }

/-- The idle-reap block of `channel.tick`: `idleTick++`, and at
`DeadlineTick` reset it and emit `ChannelActionClose`. -/
def Channel.tickIdle (c : Channel) : Channel :=
  if c.idleTick + 1 ≥ c.opts.deadlineTick then
    ({ c with idleTick := 0 } : Channel).exec
      { actionType := ChannelActionType.actClose }
  else { c with idleTick := c.idleTick + 1 }

/-- The six retry blocks of `channel.tick`, one per stage. -/
def Channel.tickRetries (c : Channel) : Channel :=
  { c with
    payloadDecryptState := c.payloadDecryptState.tickRetry c.retryTickCount
    permissionCheckState := c.permissionCheckState.tickRetry c.retryTickCount
    storageState := c.storageState.tickRetry c.retryTickCount
    sendackState := c.sendackState.tickRetry c.retryTickCount
    deliveryState := c.deliveryState.tickRetry c.retryTickCount
    forwardState := c.forwardState.tickRetry c.retryTickCount }

/-- The trailing `if c.tickFnc != nil { c.tickFnc() }` of `channel.tick`:
`tickFnc` is `tickLeader` for a leader, `tickProxy` — a no-op — for a
proxy, and nil otherwise. -/
def Channel.roleTick (c : Channel) : Channel :=
  match c.role with
  | ChannelRole.leader => c.tickLeader
  | _ => c

/-- `channel.tick`: bump the tick counters, reap the channel at
`DeadlineTick`, run the per-stage retry countdowns, then the role tick. -/
def Channel.tick (c : Channel) : Channel :=
  (({ c with initTick := c.initTick + 1, forwardTick := c.forwardTick + 1 }
    : Channel).tickIdle.tickRetries).roleTick

/-! ## Channel reactor: step and index reset

`channel.resetIndex` calls `channelMsgQueue.resetIndex`, and the step
handlers (`stepLeader`/`stepProxy` and the completion callbacks that advance
the cursors) are code of this repository that is not under src/; they are
modelled from the spec below. -/

/-- An input to the channel step function. -/
inductive StepInput where
  | initOk
  | send (n : Nat)
  | stageOk (st : Stage) (target : Nat)
  | stageFail (st : Stage)
deriving Repr, DecidableEq

/-- Modelled from the spec: the channel step handlers (`stepLeader`,
`stepProxy` and the action completion callbacks) are absent from src/.
Per the spec: a `Send` appends to the message queue; a stage completion
"decrypt a batch of messages `[payloadDecryptingIndex+1 … lastIndex]`" (and
likewise for the other stages) advances the stage's downstream cursor,
strictly forward and never past the stage's upstream cursor, and clears
`processing`; "On action failure the stage sets `willRetry=true` with
`retryTick=0`"; `idleTick` is "reset on any stage activity". -/
def Channel.step (c : Channel) (i : StepInput) : Channel :=
  let c := { c with idleTick := 0 }
  match i with
  | StepInput.initOk => { c with status := ChannelStatus.initialized }
  | StepInput.send n =>
    { c with msgQueue := { c.msgQueue with lastIndex := c.msgQueue.lastIndex + n } }
  | StepInput.stageOk st t =>
    let q := c.msgQueue
    let q := if st.cursor q ≤ t ∧ t ≤ st.upstream q then st.setCursor q t else q
    st.setState { c with msgQueue := q } { (Stage.state st c) with processing := false }
  | StepInput.stageFail st =>
    st.setState c { processing := false, willRetry := true, retryTick := 0 }

/-- `channel.resetIndex`: reset the queue cursors
(`channelMsgQueue.resetIndex`, absent from src/, is modelled from the spec —
the channel returns to an uninitialized queue, every cursor at zero),
release the receiver tag, clear every stage state, and zero `idleTick` and
`initTick` (the other tick counters are left alone, matching the source). -/
def Channel.resetIndex (c : Channel) : Channel :=
  { c with
    msgQueue := {}
    receiverTagKey := ""
    payloadDecryptState := {}
    permissionCheckState := {}
    storageState := {}
    sendackState := {}
    deliveryState := {}
    forwardState := {}
    idleTick := 0
    initTick := 0 }

/-- `channel.becomeLeader`. -/
def Channel.becomeLeader (c : Channel) : Channel :=
  { c.resetIndex with leaderId := 0, role := ChannelRole.leader }

/-- `channel.becomeProxy`. -/
def Channel.becomeProxy (c : Channel) (leaderId : Nat) : Channel :=
  { c.resetIndex with leaderId := leaderId, role := ChannelRole.proxy }

/-- The operations of a channel object. -/
inductive ChannelOp where
  | tick
  | ready
  | resetIndex
  | becomeLeader
  | becomeProxy (leaderId : Nat)
  | step (i : StepInput)
deriving Repr, DecidableEq

/-- Apply one operation. -/
def Channel.apply (c : Channel) : ChannelOp → Channel
  | ChannelOp.tick => c.tick
  | ChannelOp.ready => c.ready.1
  | ChannelOp.resetIndex => c.resetIndex
  | ChannelOp.becomeLeader => c.becomeLeader
  | ChannelOp.becomeProxy l => c.becomeProxy l
  | ChannelOp.step i => c.step i

/-- Run a list of operations. -/
def runOps (c : Channel) (ops : List ChannelOp) : Channel :=
  ops.foldl Channel.apply c

/-- A channel state reachable from `newChannel` by the channel operations. -/
inductive Reachable (opts : ChannelOptions) : Channel → Prop where
  | base : Reachable opts (newChannel opts)
  | next {c : Channel} (op : ChannelOp) : Reachable opts c → Reachable opts (c.apply op)

theorem reachable_runOps (opts : ChannelOptions) (ops : List ChannelOp)
    {c : Channel} (h : Reachable opts c) : Reachable opts (runOps c ops) := by
  induction ops generalizing c with
  | nil => exact h
  | cons op rest ih => exact ih (h.next op)

/-! ## Channel cursor ordering -/

/-- The six-cursor chain exactly as the spec states it:
`deliveringIndex ≤ sendackingIndex ≤ storagingIndex ≤ permissionCheckingIndex
≤ payloadDecryptingIndex ≤ lastIndex`. -/
def ordered6 (q : ChannelMsgQueue) : Prop :=
  q.deliveringIndex ≤ q.sendackingIndex ∧
  q.sendackingIndex ≤ q.storagingIndex ∧
  q.storagingIndex ≤ q.permissionCheckingIndex ∧
  q.permissionCheckingIndex ≤ q.payloadDecryptingIndex ∧
  q.payloadDecryptingIndex ≤ q.lastIndex

instance (q : ChannelMsgQueue) : Decidable (ordered6 q) := by
  unfold ordered6; infer_instance

/-- The cursor ordering the code actually maintains: `deliveringIndex` and
`sendackingIndex` each trail `storagingIndex` but are not ordered against
each other (the sendack and deliver stages both drain `(·, storagingIndex]`
independently — channel.go lines 206 and 215), and
`forwardingIndex ≤ payloadDecryptingIndex` for the proxy stage. -/
def orderedOk (q : ChannelMsgQueue) : Prop :=
  q.deliveringIndex ≤ q.storagingIndex ∧
  q.sendackingIndex ≤ q.storagingIndex ∧
  q.storagingIndex ≤ q.permissionCheckingIndex ∧
  q.permissionCheckingIndex ≤ q.payloadDecryptingIndex ∧
  q.payloadDecryptingIndex ≤ q.lastIndex ∧
  q.forwardingIndex ≤ q.payloadDecryptingIndex

instance (q : ChannelMsgQueue) : Decidable (orderedOk q) := by
  unfold orderedOk; infer_instance

/-- No cursor of `q'` is below the matching cursor of `q`. -/
def cursorsMono (q q' : ChannelMsgQueue) : Prop :=
  q.lastIndex ≤ q'.lastIndex ∧
  q.payloadDecryptingIndex ≤ q'.payloadDecryptingIndex ∧
  q.permissionCheckingIndex ≤ q'.permissionCheckingIndex ∧
  q.storagingIndex ≤ q'.storagingIndex ∧
  q.sendackingIndex ≤ q'.sendackingIndex ∧
  q.deliveringIndex ≤ q'.deliveringIndex ∧
  q.forwardingIndex ≤ q'.forwardingIndex

theorem exec_msgQueue (c : Channel) (a : ChannelAction) :
    (c.exec a).msgQueue = c.msgQueue := rfl

theorem setState_msgQueue (st : Stage) (c : Channel) (s : ReadyState) :
    (st.setState c s).msgQueue = c.msgQueue := by
  cases st <;> rfl

theorem tickLeader_msgQueue (c : Channel) : c.tickLeader.msgQueue = c.msgQueue := by
  simp only [Channel.tickLeader, Channel.exec]
  split_ifs <;> rfl

theorem tickIdle_msgQueue (c : Channel) : c.tickIdle.msgQueue = c.msgQueue := by
  unfold Channel.tickIdle
  split <;> rfl

theorem tickRetries_msgQueue (c : Channel) : c.tickRetries.msgQueue = c.msgQueue := rfl

theorem roleTick_msgQueue (c : Channel) : c.roleTick.msgQueue = c.msgQueue := by
  unfold Channel.roleTick
  cases hr : c.role <;> simp [tickLeader_msgQueue]

theorem tick_msgQueue (c : Channel) : c.tick.msgQueue = c.msgQueue := by
  unfold Channel.tick
  rw [roleTick_msgQueue, tickRetries_msgQueue, tickIdle_msgQueue]

theorem setState_actions (st : Stage) (c : Channel) (s : ReadyState) :
    (st.setState c s).actions = c.actions := by
  cases st <;> rfl

theorem setState_leaderId (st : Stage) (c : Channel) (s : ReadyState) :
    (st.setState c s).leaderId = c.leaderId := by
  cases st <;> rfl

theorem setState_role (st : Stage) (c : Channel) (s : ReadyState) :
    (st.setState c s).role = c.role := by
  cases st <;> rfl

theorem dispatch_msgQueue (c : Channel) (st : Stage) :
    (c.dispatch st).msgQueue = c.msgQueue := by
  unfold Channel.dispatch
  split
  · rw [exec_msgQueue, setState_msgQueue]
  · rfl

theorem dispatch_leaderId (c : Channel) (st : Stage) :
    (c.dispatch st).leaderId = c.leaderId := by
  unfold Channel.dispatch
  split
  · rw [show ∀ (d : Channel) a, (d.exec a).leaderId = d.leaderId from fun _ _ => rfl,
      setState_leaderId]
  · rfl

theorem dispatch_role (c : Channel) (st : Stage) :
    (c.dispatch st).role = c.role := by
  unfold Channel.dispatch
  split
  · rw [show ∀ (d : Channel) a, (d.exec a).role = d.role from fun _ _ => rfl,
      setState_role]
  · rfl

theorem dispatch_actions (c : Channel) (st : Stage) :
    (c.dispatch st).actions =
      c.actions ++
        (if c.stageGate st then [stageAction st c.msgQueue c.leaderId] else []) := by
  unfold Channel.dispatch
  split <;> simp_all [Channel.exec, setState_actions]

theorem mem_dispatch_actions {c : Channel} {st : Stage} {a : ChannelAction}
    (h : a ∈ (c.dispatch st).actions) :
    a ∈ c.actions ∨ a = stageAction st c.msgQueue c.leaderId := by
  rw [dispatch_actions] at h
  rcases List.mem_append.1 h with h | h
  · exact Or.inl h
  · split at h
    · exact Or.inr (List.mem_singleton.1 h)
    · cases h

theorem readyLeader_msgQueue (c : Channel) : c.readyLeader.msgQueue = c.msgQueue := by
  unfold Channel.readyLeader
  rw [dispatch_msgQueue, dispatch_msgQueue, dispatch_msgQueue, dispatch_msgQueue]

theorem readyProxy_msgQueue (c : Channel) : c.readyProxy.msgQueue = c.msgQueue := by
  unfold Channel.readyProxy
  rw [dispatch_msgQueue]

theorem readyBody_msgQueue (c : Channel) : c.readyBody.msgQueue = c.msgQueue := by
  unfold Channel.readyBody
  split
  · rfl
  · cases hr : (c.dispatch Stage.payloadDecrypt).role <;>
      simp [hr, readyLeader_msgQueue, readyProxy_msgQueue, dispatch_msgQueue]

theorem ready_msgQueue (c : Channel) : c.ready.1.msgQueue = c.msgQueue := by
  unfold Channel.ready
  split
  · rfl
  · exact readyBody_msgQueue c

theorem step_orderedOk (c : Channel) (i : StepInput) (h : orderedOk c.msgQueue) :
    orderedOk (c.step i).msgQueue := by
  obtain ⟨h1, h2, h3, h4, h5, h6⟩ := h
  cases i with
  | initOk => exact ⟨h1, h2, h3, h4, h5, h6⟩
  | send n =>
    simp only [Channel.step]
    exact ⟨h1, h2, h3, h4, Nat.le_add_right_of_le h5, h6⟩
  | stageOk st t =>
    simp only [Channel.step, setState_msgQueue]
    split
    · cases st <;>
        simp_all [Stage.cursor, Stage.upstream, Stage.setCursor, orderedOk] <;>
        omega
    · exact ⟨h1, h2, h3, h4, h5, h6⟩
  | stageFail st =>
    simp only [Channel.step, setState_msgQueue]
    exact ⟨h1, h2, h3, h4, h5, h6⟩

theorem step_cursorsMono (c : Channel) (i : StepInput) :
    cursorsMono c.msgQueue (c.step i).msgQueue := by
  cases i with
  | initOk => exact ⟨le_refl _, le_refl _, le_refl _, le_refl _, le_refl _, le_refl _, le_refl _⟩
  | send n =>
    simp only [Channel.step]
    exact ⟨Nat.le_add_right _ _, le_refl _, le_refl _, le_refl _, le_refl _, le_refl _, le_refl _⟩
  | stageOk st t =>
    simp only [Channel.step, setState_msgQueue]
    split
    · cases st <;>
        simp_all [Stage.cursor, Stage.upstream, Stage.setCursor, cursorsMono] <;> omega
    · exact ⟨le_refl _, le_refl _, le_refl _, le_refl _, le_refl _, le_refl _, le_refl _⟩
  | stageFail st =>
    simp only [Channel.step, setState_msgQueue]
    exact ⟨le_refl _, le_refl _, le_refl _, le_refl _, le_refl _, le_refl _, le_refl _⟩

theorem orderedOk_empty : orderedOk ({} : ChannelMsgQueue) := by decide

theorem apply_orderedOk (c : Channel) (op : ChannelOp) (h : orderedOk c.msgQueue) :
    orderedOk ((c.apply op).msgQueue) := by
  cases op with
  | tick => rw [Channel.apply, tick_msgQueue]; exact h
  | ready => rw [Channel.apply, ready_msgQueue]; exact h
  | resetIndex => exact orderedOk_empty
  | becomeLeader => exact orderedOk_empty
  | becomeProxy l => exact orderedOk_empty
  | step i => exact step_orderedOk c i h

theorem reachable_orderedOk (opts : ChannelOptions) (c : Channel)
    (h : Reachable opts c) : orderedOk c.msgQueue := by
  induction h with
  | base => exact orderedOk_empty
  | next op _ ih => exact apply_orderedOk _ op ih

theorem cursorsMono_refl (q : ChannelMsgQueue) : cursorsMono q q :=
  ⟨le_refl _, le_refl _, le_refl _, le_refl _, le_refl _, le_refl _, le_refl _⟩

/-- Concrete reactor-channel options used for the concrete instances below. -/
def cexOpts : ChannelOptions :=
  { processIntervalTick := 1, deadlineTick := 100, tagCheckIntervalTick := 10 }

/-- An operation sequence on which the deliver stage overtakes the sendack
stage: one message is sent, decrypted, permission-checked, stored, and then
delivered before any sendack completes. -/
def c1CexOps : List ChannelOp :=
  [ChannelOp.step StepInput.initOk,
   ChannelOp.becomeLeader,
   ChannelOp.step (StepInput.send 1),
   ChannelOp.step (StepInput.stageOk Stage.payloadDecrypt 1),
   ChannelOp.step (StepInput.stageOk Stage.permissionCheck 1),
   ChannelOp.step (StepInput.stageOk Stage.storage 1),
   ChannelOp.step (StepInput.stageOk Stage.deliver 1)]

/-- C1 counterexample: a reachable channel state in which
`deliveringIndex = 1 > sendackingIndex = 0`, so the six-cursor chain of the
claim does not hold.  The deliver dispatch range `(deliveringIndex,
storagingIndex]` of `channel.ready` is independent of `sendackingIndex`
(channel.go line 215), and the source's own comment at line 205 notes that
delivery may complete (and reap messages) before the sendack for them went
out. -/
theorem c1_counterexample :
    Reachable cexOpts (runOps (newChannel cexOpts) c1CexOps) ∧
    ¬ ordered6 (runOps (newChannel cexOpts) c1CexOps).msgQueue :=
  ⟨reachable_runOps cexOpts c1CexOps Reachable.base, by decide⟩

/-- C1 (amended): for every reachable channel state the cursors satisfy
`deliveringIndex ≤ storagingIndex`, `sendackingIndex ≤ storagingIndex ≤
permissionCheckingIndex ≤ payloadDecryptingIndex ≤ lastIndex` (and
`forwardingIndex ≤ payloadDecryptingIndex`) — the deliver and sendack
cursors are not mutually ordered; every channel operation preserves this
ordering, and no cursor decreases under `step`, `tick` or `ready` (only
`resetIndex`, also when run by `becomeLeader`/`becomeProxy`, moves cursors
back). -/
theorem c1_cursor_invariant (opts : ChannelOptions) (c : Channel)
    (h : Reachable opts c) :
    orderedOk c.msgQueue ∧
    (∀ op, orderedOk ((c.apply op).msgQueue)) ∧
    cursorsMono c.msgQueue c.tick.msgQueue ∧
    cursorsMono c.msgQueue c.ready.1.msgQueue ∧
    (∀ i, cursorsMono c.msgQueue ((c.step i).msgQueue)) := by
  refine ⟨reachable_orderedOk opts c h,
    fun op => apply_orderedOk c op (reachable_orderedOk opts c h), ?_, ?_,
    fun i => step_cursorsMono c i⟩
  · rw [tick_msgQueue]; exact cursorsMono_refl _
  · rw [ready_msgQueue]; exact cursorsMono_refl _

/-- Witness for C1 (amended) at the freshly created channel. -/
theorem c1_cursor_invariant_witness :
    orderedOk (newChannel cexOpts).msgQueue ∧
    (∀ op, orderedOk (((newChannel cexOpts).apply op).msgQueue)) ∧
    cursorsMono (newChannel cexOpts).msgQueue (newChannel cexOpts).tick.msgQueue ∧
    cursorsMono (newChannel cexOpts).msgQueue (newChannel cexOpts).ready.1.msgQueue ∧
    (∀ i, cursorsMono (newChannel cexOpts).msgQueue (((newChannel cexOpts).step i).msgQueue)) :=
  c1_cursor_invariant cexOpts (newChannel cexOpts) Reachable.base

/-- C4: for every channel and every pipeline stage, the gate `hasUnX` is
true exactly when the stage is not `processing` and the stage's downstream
cursor is strictly below its upstream cursor
(channel.go `hasPayloadUnDecrypt` … `hasUnforward`, lines 259–310). -/
theorem c4_gating_rules (c : Channel) :
    (c.hasPayloadUnDecrypt = true ↔
      c.payloadDecryptState.processing = false ∧
        c.msgQueue.payloadDecryptingIndex < c.msgQueue.lastIndex) ∧
    (c.hasPermissionUnCheck = true ↔
      c.permissionCheckState.processing = false ∧
        c.msgQueue.permissionCheckingIndex < c.msgQueue.payloadDecryptingIndex) ∧
    (c.hasUnstorage = true ↔
      c.storageState.processing = false ∧
        c.msgQueue.storagingIndex < c.msgQueue.permissionCheckingIndex) ∧
    (c.hasSendack = true ↔
      c.sendackState.processing = false ∧
        c.msgQueue.sendackingIndex < c.msgQueue.storagingIndex) ∧
    (c.hasUnDeliver = true ↔
      c.deliveryState.processing = false ∧
        c.msgQueue.deliveringIndex < c.msgQueue.storagingIndex) ∧
    (c.hasUnforward = true ↔
      c.forwardState.processing = false ∧
        c.msgQueue.forwardingIndex < c.msgQueue.payloadDecryptingIndex) := by
  refine ⟨?_, ?_, ?_, ?_, ?_, ?_⟩
  · cases hp : c.payloadDecryptState.processing <;>
      simp [Channel.hasPayloadUnDecrypt, hp]
  · cases hp : c.permissionCheckState.processing <;>
      simp [Channel.hasPermissionUnCheck, hp]
  · cases hp : c.storageState.processing <;>
      simp [Channel.hasUnstorage, hp]
  · cases hp : c.sendackState.processing <;>
      simp [Channel.hasSendack, hp]
  · cases hp : c.deliveryState.processing <;>
      simp [Channel.hasUnDeliver, hp]
  · cases hp : c.forwardState.processing <;>
      simp [Channel.hasUnforward, hp]

theorem tickIdle_idleTick (c : Channel) :
    c.tickIdle.idleTick =
      if c.idleTick + 1 ≥ c.opts.deadlineTick then 0 else c.idleTick + 1 := by
  unfold Channel.tickIdle
  split <;> simp_all [Channel.exec]

theorem tickLeader_idleTick (c : Channel) : c.tickLeader.idleTick = c.idleTick := by
  simp only [Channel.tickLeader, Channel.exec]
  split_ifs <;> rfl

theorem roleTick_idleTick (c : Channel) : c.roleTick.idleTick = c.idleTick := by
  unfold Channel.roleTick
  cases c.role <;> simp [tickLeader_idleTick]

theorem tickIdle_close (c : Channel) :
    (∃ a ∈ c.tickIdle.actions, a.actionType = ChannelActionType.actClose) ↔
      (c.idleTick + 1 ≥ c.opts.deadlineTick ∨
        ∃ a ∈ c.actions, a.actionType = ChannelActionType.actClose) := by
  unfold Channel.tickIdle
  split <;>
    simp_all [Channel.exec, List.mem_append, or_and_right, exists_or, exists_eq_left]

theorem tickLeader_close (c : Channel) :
    (∃ a ∈ c.tickLeader.actions, a.actionType = ChannelActionType.actClose) ↔
      (∃ a ∈ c.actions, a.actionType = ChannelActionType.actClose) := by
  simp only [Channel.tickLeader, Channel.exec]
  split_ifs <;>
    simp_all [Channel.exec, List.mem_append, or_and_right, exists_or, exists_eq_left]

theorem roleTick_close (c : Channel) :
    (∃ a ∈ c.roleTick.actions, a.actionType = ChannelActionType.actClose) ↔
      (∃ a ∈ c.actions, a.actionType = ChannelActionType.actClose) := by
  unfold Channel.roleTick
  cases c.role <;> simp [tickLeader_close]

theorem tickIdle_state (c : Channel) (st : Stage) :
    st.state c.tickIdle = st.state c := by
  unfold Channel.tickIdle
  split <;> cases st <;> rfl

theorem tickIdle_retryTickCount (c : Channel) :
    c.tickIdle.retryTickCount = c.retryTickCount := by
  unfold Channel.tickIdle
  split <;> rfl

theorem tickRetries_state (c : Channel) (st : Stage) :
    st.state c.tickRetries = (st.state c).tickRetry c.retryTickCount := by
  cases st <;> rfl

theorem tickLeader_state (c : Channel) (st : Stage) :
    st.state c.tickLeader = st.state c := by
  simp only [Channel.tickLeader, Channel.exec]
  split_ifs <;> cases st <;> rfl

theorem roleTick_state (c : Channel) (st : Stage) :
    st.state c.roleTick = st.state c := by
  unfold Channel.roleTick
  cases c.role <;> simp [tickLeader_state]

/-- `tick` sends every stage state through its retry countdown. -/
theorem tick_state (c : Channel) (st : Stage) :
    st.state c.tick = (st.state c).tickRetry c.retryTickCount := by
  unfold Channel.tick
  rw [roleTick_state, tickRetries_state, tickIdle_state, tickIdle_retryTickCount]
  cases st <;> rfl

/-- C5: `tick` bumps `idleTick` by one each call (resetting it to zero when
it reaches `DeadlineTick`); the reaped channel emits `ChannelActionClose`
exactly when the deadline is reached (or a close action was already
pending); and any stage activity (`step`) resets `idleTick` to zero. -/
theorem c5_idle_reap (c : Channel) :
    (c.tick.idleTick =
      if c.idleTick + 1 ≥ c.opts.deadlineTick then 0 else c.idleTick + 1) ∧
    ((∃ a ∈ c.tick.actions, a.actionType = ChannelActionType.actClose) ↔
      (c.idleTick + 1 ≥ c.opts.deadlineTick ∨
        ∃ a ∈ c.actions, a.actionType = ChannelActionType.actClose)) ∧
    (∀ i, (c.step i).idleTick = 0) := by
  refine ⟨?_, ?_, ?_⟩
  · unfold Channel.tick
    rw [roleTick_idleTick,
      show ∀ d : Channel, d.tickRetries.idleTick = d.idleTick from fun _ => rfl,
      tickIdle_idleTick]
  · unfold Channel.tick
    rw [roleTick_close,
      show ∀ d : Channel, d.tickRetries.actions = d.actions from fun _ => rfl,
      tickIdle_close]
  · intro i
    cases i with
    | initOk => rfl
    | send n => rfl
    | stageOk st t => cases st <;> simp [Channel.step, Stage.setState] <;> split <;> rfl
    | stageFail st => cases st <;> rfl

theorem readyLeader_mem {c : Channel} {a : ChannelAction}
    (h : a ∈ c.readyLeader.actions) :
    a ∈ c.actions ∨ ∃ st, a = stageAction st c.msgQueue c.leaderId := by
  unfold Channel.readyLeader at h
  rcases mem_dispatch_actions h with h | h
  · rcases mem_dispatch_actions h with h | h
    · rcases mem_dispatch_actions h with h | h
      · rcases mem_dispatch_actions h with h | h
        · exact Or.inl h
        · exact Or.inr ⟨Stage.permissionCheck, h⟩
      · exact Or.inr ⟨Stage.storage,
          by simpa [dispatch_msgQueue, dispatch_leaderId] using h⟩
    · exact Or.inr ⟨Stage.sendack,
        by simpa [dispatch_msgQueue, dispatch_leaderId] using h⟩
  · exact Or.inr ⟨Stage.deliver,
      by simpa [dispatch_msgQueue, dispatch_leaderId] using h⟩

/-- Every action `ready` hands out is either one the channel had queued
earlier, the `Init` action, or a stage dispatch whose range is computed
from the queue cursors. -/
theorem ready_mem {c : Channel} {a : ChannelAction} (ha : a ∈ c.ready.2) :
    a ∈ c.actions ∨ a.actionType = ChannelActionType.actInit ∨
      ∃ st, a = stageAction st c.msgQueue c.leaderId := by
  unfold Channel.ready at ha
  split at ha
  · cases ha
  · have hb : a ∈ c.readyBody.actions := ha
    clear ha
    unfold Channel.readyBody at hb
    split at hb
    · rcases List.mem_append.1 hb with hb | hb
      · exact Or.inl hb
      · right; left; rw [List.mem_singleton.1 hb]
    · cases hr : (c.dispatch Stage.payloadDecrypt).role <;> simp only [hr] at hb
      · rcases mem_dispatch_actions hb with hb | hb
        · exact Or.inl hb
        · exact Or.inr (Or.inr ⟨Stage.payloadDecrypt, hb⟩)
      · rcases readyLeader_mem hb with hb | ⟨st, hb⟩
        · rcases mem_dispatch_actions hb with hb | hb
          · exact Or.inl hb
          · exact Or.inr (Or.inr ⟨Stage.payloadDecrypt, hb⟩)
        · exact Or.inr (Or.inr ⟨st,
            by simpa [dispatch_msgQueue, dispatch_leaderId] using hb⟩)
      · rcases mem_dispatch_actions (a := a) hb with hb | hb
        · rcases mem_dispatch_actions hb with hb | hb
          · exact Or.inl hb
          · exact Or.inr (Or.inr ⟨Stage.payloadDecrypt, hb⟩)
        · exact Or.inr (Or.inr ⟨Stage.forward,
            by simpa [dispatch_msgQueue, dispatch_leaderId] using hb⟩)

theorem stage_actionType_inj (s1 s2 : Stage)
    (h : s1.actionType = s2.actionType) : s1 = s2 := by
  cases s1 <;> cases s2 <;> first | rfl | exact absurd h (by decide)

/-- With `c.actions` drained (as it is whenever the reactor lane calls
`ready`), every action of a stage's type that `ready` emits spans exactly
the positions `downstream cursor + 1 .. upstream cursor` — the dispatch
range is a function of the cursors alone. -/
theorem ready_actions_range (c : Channel) (hA : c.actions = []) (st : Stage)
    (a : ChannelAction) (ha : a ∈ c.ready.2) (hat : a.actionType = st.actionType) :
    a.lo = st.cursor c.msgQueue + 1 ∧ a.hi = st.upstream c.msgQueue := by
  rcases ready_mem ha with h | h | h
  · rw [hA] at h; cases h
  · rw [h] at hat
    cases st <;> exact absurd hat.symm (by decide)
  · obtain ⟨st', rfl⟩ := h
    have h2 : st' = st := stage_actionType_inj st' st hat
    subst h2
    exact ⟨rfl, rfl⟩

/-- C6: while a stage's `willRetry` is set, each `tick` advances that
stage's `retryTick`; when it reaches `retryTickCount` the flag clears and
`retryTick` returns to zero, so the stage can dispatch again.
`newChannel` installs the default `retryTickCount = 20`.  `tick` leaves the
queue cursors untouched, and the dispatch that `ready` emits for a stage
always spans `cursor+1 .. upstream` (see `ready_actions_range`), so the
retried dispatch covers the same positions and no message is skipped. -/
theorem c6_retry_backoff (c : Channel) (st : Stage)
    (h : (st.state c).willRetry = true) :
    ((st.state c.tick).retryTick =
      if (st.state c).retryTick + 1 ≥ c.retryTickCount then 0
      else (st.state c).retryTick + 1) ∧
    ((st.state c.tick).willRetry = false ↔
      (st.state c).retryTick + 1 ≥ c.retryTickCount) ∧
    (∀ opts, (newChannel opts).retryTickCount = 20) ∧
    c.tick.msgQueue = c.msgQueue ∧
    (c.actions = [] → ∀ a ∈ c.ready.2, a.actionType = st.actionType →
      a.lo = st.cursor c.msgQueue + 1 ∧ a.hi = st.upstream c.msgQueue) := by
  refine ⟨?_, ?_, fun _ => rfl, tick_msgQueue c, fun hA a ha hat =>
    ready_actions_range c hA st a ha hat⟩
  · rw [tick_state]
    unfold ReadyState.tickRetry
    rw [if_pos h]
    split_ifs <;> rfl
  · rw [tick_state]
    unfold ReadyState.tickRetry
    rw [if_pos h]
    split_ifs with hc <;> simp [h, hc]

/-- A concrete channel whose forward stage is waiting for a retry. -/
def c6Channel : Channel :=
  { opts := cexOpts, forwardState := { willRetry := true, retryTick := 4 } }

/-- Witness for C6 at a concrete channel with `willRetry` set on the
forward stage. -/
theorem c6_retry_backoff_witness :
    (Stage.forward.state c6Channel).willRetry = true ∧
    (((Stage.forward.state c6Channel.tick).retryTick =
      if (Stage.forward.state c6Channel).retryTick + 1 ≥ c6Channel.retryTickCount then 0
      else (Stage.forward.state c6Channel).retryTick + 1) ∧
    ((Stage.forward.state c6Channel.tick).willRetry = false ↔
      (Stage.forward.state c6Channel).retryTick + 1 ≥ c6Channel.retryTickCount) ∧
    (∀ opts, (newChannel opts).retryTickCount = 20) ∧
    c6Channel.tick.msgQueue = c6Channel.msgQueue ∧
    (c6Channel.actions = [] → ∀ a ∈ c6Channel.ready.2,
      a.actionType = Stage.forward.actionType →
      a.lo = Stage.forward.cursor c6Channel.msgQueue + 1 ∧
        a.hi = Stage.forward.upstream c6Channel.msgQueue)) :=
  ⟨rfl, c6_retry_backoff c6Channel Stage.forward rfl⟩

/-! ## Forwarded proposes (src/unnamed/part_003,
`channelGroupManager.proposeMessages`, lines 480–524) -/

/-- The side effects `proposeMessages` performs, in order. -/
inductive ProposeEffect where
  | requestPropose (dest : Nat)
  | deleteClusterConfig
  | proposeLocal
deriving Repr, DecidableEq

/-- `ChannelProposeResp`: the leader's reply to a forwarded propose.
Message items are abstracted to their ids. -/
structure ChannelProposeResp where
  clusterConfigOld : Bool := false
  messageItems : List Nat := []
deriving Repr, DecidableEq

/-- `channelGroupManager.proposeMessages` after the channel is fetched:
`isLeader`/`leaderId` describe the fetched channel; `forward` is the result
`requestChannelProposeMessage` returns when called; `localResult` the
result of `proposeAndWaitCommits`.  Returns the performed side effects in
order together with the returned value.  On `ClusterConfigOld` the source
deletes the cached channel cluster config
(`ChannelClusterStorage.Delete`) and returns `resp.MessageItems, nil`. -/
def proposeMessages (isLeader : Bool) (leaderId : Nat)
    (forward : Except String ChannelProposeResp)
    (localResult : Except String (List Nat)) :
    List ProposeEffect × Except String (List Nat) :=
  if !isLeader then
    match forward with
    | Except.error e => ([ProposeEffect.requestPropose leaderId], Except.error e)
    | Except.ok resp =>
      if resp.clusterConfigOld then
        ([ProposeEffect.requestPropose leaderId, ProposeEffect.deleteClusterConfig],
          Except.ok resp.messageItems)
      else
        ([ProposeEffect.requestPropose leaderId], Except.ok resp.messageItems)
  else ([ProposeEffect.proposeLocal], localResult)

/-- C3 counterexample: at a concrete non-leader channel whose forwarded
propose answers `ClusterConfigOld`, `proposeMessages` performs exactly one
`requestChannelProposeMessage` and the config purge, then returns the
response's items — it never issues a second propose, so no retry happens
before returning to the caller. -/
theorem c3_counterexample :
    proposeMessages false 2
        (Except.ok { clusterConfigOld := true, messageItems := [7] })
        (Except.ok []) =
      ([ProposeEffect.requestPropose 2, ProposeEffect.deleteClusterConfig],
        Except.ok [7]) ∧
    ((proposeMessages false 2
        (Except.ok { clusterConfigOld := true, messageItems := [7] })
        (Except.ok [])).1.count (ProposeEffect.requestPropose 2) = 1) :=
  ⟨rfl, by decide⟩

/-- C3 (amended): when a non-leader forwards a propose and the response
indicates `ClusterConfigOld`, the caller deletes the cached channel
cluster config and returns the response's message items to its caller
without retrying the propose. -/
theorem c3_config_old_purge (leaderId : Nat) (resp : ChannelProposeResp)
    (localResult : Except String (List Nat))
    (h : resp.clusterConfigOld = true) :
    proposeMessages false leaderId (Except.ok resp) localResult =
      ([ProposeEffect.requestPropose leaderId, ProposeEffect.deleteClusterConfig],
        Except.ok resp.messageItems) := by
  simp [proposeMessages, h]

/-- Witness for C3 (amended). -/
theorem c3_config_old_purge_witness :
    ({ clusterConfigOld := true, messageItems := [7] }
        : ChannelProposeResp).clusterConfigOld = true ∧
    proposeMessages false 2
        (Except.ok { clusterConfigOld := true, messageItems := [7] })
        (Except.error "x") =
      ([ProposeEffect.requestPropose 2, ProposeEffect.deleteClusterConfig],
        Except.ok [7]) :=
  ⟨rfl, c3_config_old_purge 2 { clusterConfigOld := true, messageItems := [7] }
    (Except.error "x") rfl⟩

/-! ## Cluster configuration writes (src/unnamed/part_003,
`ClusterEventManager`) -/

/-- `pb.Node`, restricted to the fields the write operations touch. -/
structure PbNode where
  id : Nat
  clusterAddr : String := ""
  online : Bool := true
  allowVote : Bool := true
  offlineCount : Nat := 0
  dataTerm : Nat := 1
  apiAddr : String := ""
deriving Repr, DecidableEq

/-- `pb.Cluster`: the monotonically-versioned cluster configuration. -/
structure PbCluster where
  version : Nat := 0
  term : Nat := 0
  slotCount : Nat := 0
  nodes : List PbNode := []
deriving Repr, DecidableEq

/-- `ClusterEventManager.saveAndVersionInc`: bump the version, then persist.
The second component is the version of the persisted write. -/
def saveAndVersionInc (c : PbCluster) : PbCluster × Nat :=
  ({ c with version := c.version + 1 }, c.version + 1)

/-- `ClusterEventManager.SetNodeOnlineNoSave`: flip the first matching
node's online flag; on going offline also bump `OfflineCount` and
`DataTerm`. -/
def setNodeOnlineNoSave : List PbNode → Nat → Bool → List PbNode
  | [], _, _ => []
  | n :: ns, nodeId, online =>
    if n.id = nodeId then
      { n with
        online := online
        offlineCount := if online then n.offlineCount else n.offlineCount + 1
        dataTerm := if online then n.dataTerm else n.dataTerm + 1 } :: ns
    else n :: setNodeOnlineNoSave ns nodeId online

/-- `ClusterEventManager.UpdateNode` body: only the api address of the
first matching node is updated. -/
def updateNodeAddr : List PbNode → PbNode → List PbNode
  | [], _ => []
  | n :: ns, u =>
    if n.id = u.id then { n with apiAddr := u.apiAddr } :: ns
    else n :: updateNodeAddr ns u

/-- The persisted-write operations of `ClusterEventManager` named by the
claim. -/
inductive CemOp where
  | setTerm (t : Nat)
  | saveAndVersionInc
  | updateClusterConfig (cfg : PbCluster)
  | updateNode (n : PbNode)
  | setNodeOnline (nodeId : Nat) (online : Bool)
deriving Repr, DecidableEq

/-- Apply one `ClusterEventManager` write.  The second component is the
`version` field of the configuration handed to `save()` — the persisted
write.  `UpdateClusterConfig` replaces the configuration and calls `save()`
directly, without `saveAndVersionInc` (part_003 lines 2271–2279). -/
def applyCemOp (c : PbCluster) : CemOp → PbCluster × Nat
  | CemOp.setTerm t => saveAndVersionInc { c with term := t }
  | CemOp.saveAndVersionInc => saveAndVersionInc c
  | CemOp.updateClusterConfig cfg => (cfg, cfg.version)
  | CemOp.updateNode n => saveAndVersionInc { c with nodes := updateNodeAddr c.nodes n }
  | CemOp.setNodeOnline nodeId online =>
      saveAndVersionInc { c with nodes := setNodeOnlineNoSave c.nodes nodeId online }

/-- Run a sequence of writes, collecting the persisted versions in order. -/
def runCem (c : PbCluster) : List CemOp → PbCluster × List Nat
  | [] => (c, [])
  | op :: ops =>
    ((runCem (applyCemOp c op).1 ops).1,
      (applyCemOp c op).2 :: (runCem (applyCemOp c op).1 ops).2)

/-- Is the op an `UpdateClusterConfig`? -/
def isUpdateClusterConfig : CemOp → Bool
  | CemOp.updateClusterConfig _ => true
  | _ => false

theorem applyCemOp_not_update (c : PbCluster) (op : CemOp)
    (h : isUpdateClusterConfig op = false) :
    (applyCemOp c op).2 = c.version + 1 ∧
      (applyCemOp c op).1.version = c.version + 1 := by
  cases op <;> simp_all [applyCemOp, saveAndVersionInc, isUpdateClusterConfig]

/-- C7 counterexample: `UpdateClusterConfig` persists the supplied
configuration verbatim, without bumping the version.  After
`SaveAndVersionInc` persisted version 1, an `UpdateClusterConfig` carrying
a version-0 configuration persists version 0 — the persisted versions
`[1, 0]` are not strictly increasing. -/
theorem c7_counterexample :
    (runCem {} [CemOp.saveAndVersionInc, CemOp.updateClusterConfig {}]).2 = [1, 0] ∧
    ¬ List.Chain' (· < ·)
      (runCem {} [CemOp.saveAndVersionInc, CemOp.updateClusterConfig {}]).2 :=
  ⟨rfl, by
    rw [show (runCem {} [CemOp.saveAndVersionInc,
      CemOp.updateClusterConfig {}]).2 = [1, 0] from rfl]
    simp [List.chain'_cons]⟩

/-- C7 (amended): across any sequence of `SetTerm`, `SaveAndVersionInc`,
`UpdateNode` and `SetNodeOnline` writes the persisted versions are
strictly increasing (each one version above the previous state);
`UpdateClusterConfig` persists the supplied configuration's version
verbatim, so monotonicity across it holds only if the caller supplies a
newer version. -/
theorem c7_version_mono (c : PbCluster) (ops : List CemOp)
    (h : ∀ op ∈ ops, isUpdateClusterConfig op = false) :
    List.Chain' (· < ·) (c.version :: (runCem c ops).2) := by
  induction ops generalizing c with
  | nil => simp [runCem]
  | cons op rest ih =>
    obtain ⟨h1, h2⟩ := applyCemOp_not_update c op (h op (by simp))
    simp only [runCem, List.chain'_cons]
    refine ⟨?_, ?_⟩
    · rw [h1]; omega
    · have := ih (applyCemOp c op).1 (fun o ho => h o (by simp [ho]))
      rw [h2] at this
      rw [h1]
      exact this

/-! ## Channel placement election (src/unnamed/part_003,
`channelGroupManager`) -/

/-- `ChannelLastLogInfoResponse`. -/
structure ChannelLastLogInfoResponse where
  logIndex : Nat
deriving Repr, DecidableEq

/-- `wkstore.ChannelClusterConfig` (the placement), restricted to the
fields the election touches. -/
structure ChannelClusterConfig where
  channelId : String := ""
  channelType : Nat := 0
  leaderId : Nat := 0
  replicas : List Nat := []
  replicaCount : Nat := 0
  term : Nat := 0
deriving Repr, DecidableEq

/-- `channelGroupManager.quorum`: 1 for a single-node cluster, otherwise
`ChannelMaxReplicaCount/2 + 1` (integer division; `createChannelClusterInfo`
sets the placement's `ReplicaCount` from the same option). -/
def quorum (isSingleNode : Bool) (channelMaxReplicaCount : Nat) : Nat :=
  if isSingleNode then 1 else channelMaxReplicaCount / 2 + 1

/-- The `for nodeID, resp := range channelLogInfoMap` loop of
`channelLeaderIDByLogInfo`: running `(leaderID, leaderLogIndex)` pair,
replaced on a strictly higher log index.  The Go map is modelled as an
association list; the list order stands for one map iteration order. -/
def leaderFold (m : List (Nat × ChannelLastLogInfoResponse)) : Nat × Nat :=
  m.foldl (fun acc kv => if kv.2.logIndex > acc.2 then (kv.1, kv.2.logIndex) else acc)
    (0, 0)

/-- `channelLogInfoMap[nodeId]` as the Go map lookup. -/
def lookupResp (nodeId : Nat) (m : List (Nat × ChannelLastLogInfoResponse)) :
    Option ChannelLastLogInfoResponse :=
  (m.find? (fun kv => decide (kv.1 = nodeId))).map Prod.snd

/-- `channelGroupManager.channelLeaderIDByLogInfo`.  When the winner of the
fold differs from the current node, the source reads
`channelLogInfoMap[c.s.opts.NodeID]` and dereferences it without a presence
check; a missing entry is a nil map value and the dereference faults —
modelled as `none`. -/
def channelLeaderIDByLogInfo (selfId : Nat)
    (m : List (Nat × ChannelLastLogInfoResponse)) : Option Nat :=
  let p := leaderFold m
  if p.1 ≠ selfId then
    match lookupResp selfId m with
    | none => none
    | some resp => if resp.logIndex ≥ p.2 then some selfId else some p.1
  else some p.1

/-- `channelGroupManager.requestChannelLastLogInfos`: one entry per replica
that is online and answered.  Offline replicas are skipped; the current
node contributes its local `MessageLogStorage.LastIndex`; for the others
the `remote` oracle is `none` when the node is missing from the node
manager or the request failed (both are skipped by the source).  The
concurrent goroutines fill a map; the list keeps the replica order. -/
def requestChannelLastLogInfos (selfId : Nat) (online : Nat → Bool)
    (selfLastIndex : Nat) (remote : Nat → Option ChannelLastLogInfoResponse)
    (replicas : List Nat) : List (Nat × ChannelLastLogInfoResponse) :=
  replicas.filterMap (fun rid =>
    if !online rid then none
    else if rid = selfId then some (rid, { logIndex := selfLastIndex })
    else (remote rid).map (fun resp => (rid, resp)))

/-- `channelGroupManager.checkOnlineReplicaCount`: the current node counts
unconditionally, any other replica counts when its node is known and
online. -/
def checkOnlineReplicaCount (selfId : Nat) (online : Nat → Bool)
    (replicas : List Nat) (q : Nat) : Bool :=
  q ≤ replicas.countP (fun rid => decide (rid = selfId) || online rid)

/-- `channelGroupManager.electionIfNeed` from the point where an election
is needed (part_003 lines 883–925): check the online replica count, gather
the last-log indexes, require a quorum of responses, pick the leader, bump
the term by one, and hand the updated placement to
`ChannelClusterStorage.Save` (the `.ok` value is the saved placement). -/
def electionCore (selfId : Nat) (isSingleNode : Bool)
    (channelMaxReplicaCount : Nat) (online : Nat → Bool) (selfLastIndex : Nat)
    (remote : Nat → Option ChannelLastLogInfoResponse)
    (cfg : ChannelClusterConfig) : Except String ChannelClusterConfig :=
  let q := quorum isSingleNode channelMaxReplicaCount
  if !checkOnlineReplicaCount selfId online cfg.replicas q then
    Except.error "online replica count is not enough, checkOnlineReplicaCount failed"
  else
    let m := requestChannelLastLogInfos selfId online selfLastIndex remote cfg.replicas
    if m.length < q then
      Except.error "online replica count is not enough"
    else
      match channelLeaderIDByLogInfo selfId m with
      | none => Except.error "nil ChannelLastLogInfoResponse dereference"
      | some newLeaderId =>
        if newLeaderId = 0 then Except.error "new leader is not found"
        else Except.ok { cfg with leaderId := newLeaderId, term := cfg.term + 1 }

/-- The highest log index among the gathered responses. -/
def maxLogIndex (m : List (Nat × ChannelLastLogInfoResponse)) : Nat :=
  m.foldl (fun acc kv => max acc kv.2.logIndex) 0

theorem foldl_max_init (m : List (Nat × ChannelLastLogInfoResponse)) (v : Nat) :
    v ≤ m.foldl (fun acc kv => max acc kv.2.logIndex) v := by
  induction m generalizing v with
  | nil => exact le_refl v
  | cons kv rest ih => exact le_trans (Nat.le_max_left _ _) (ih _)

theorem mem_le_maxLog (m : List (Nat × ChannelLastLogInfoResponse))
    (kv : Nat × ChannelLastLogInfoResponse) (hkv : kv ∈ m) :
    kv.2.logIndex ≤ maxLogIndex m := by
  unfold maxLogIndex
  generalize hv : 0 = v
  clear hv
  induction m generalizing v with
  | nil => cases hkv
  | cons hd rest ih =>
    rcases List.mem_cons.1 hkv with h | h
    · subst h
      exact le_trans (Nat.le_max_right _ _) (foldl_max_init rest _)
    · exact ih h _

theorem leaderFold_snd_general (m : List (Nat × ChannelLastLogInfoResponse)) :
    ∀ acc : Nat × Nat,
      (m.foldl (fun acc kv =>
          if kv.2.logIndex > acc.2 then (kv.1, kv.2.logIndex) else acc) acc).2 =
        m.foldl (fun a kv => max a kv.2.logIndex) acc.2 := by
  induction m with
  | nil => intro acc; rfl
  | cons kv rest ih =>
    intro acc
    simp only [List.foldl_cons]
    split
    · rename_i hgt
      rw [ih (kv.1, kv.2.logIndex)]
      congr 1
      simp only []
      omega
    · rename_i hgt
      rw [ih acc]
      congr 1
      simp only [gt_iff_lt, not_lt] at hgt
      omega

theorem leaderFold_snd (m : List (Nat × ChannelLastLogInfoResponse)) :
    (leaderFold m).2 = maxLogIndex m := by
  unfold leaderFold maxLogIndex
  exact leaderFold_snd_general m (0, 0)

theorem leaderFold_mem_general (m : List (Nat × ChannelLastLogInfoResponse)) :
    ∀ acc : Nat × Nat,
      m.foldl (fun acc kv =>
          if kv.2.logIndex > acc.2 then (kv.1, kv.2.logIndex) else acc) acc = acc ∨
      ∃ resp,
        ((m.foldl (fun acc kv =>
            if kv.2.logIndex > acc.2 then (kv.1, kv.2.logIndex) else acc) acc).1,
          resp) ∈ m ∧
        resp.logIndex =
          (m.foldl (fun acc kv =>
            if kv.2.logIndex > acc.2 then (kv.1, kv.2.logIndex) else acc) acc).2 := by
  induction m with
  | nil => intro acc; exact Or.inl rfl
  | cons kv rest ih =>
    intro acc
    simp only [List.foldl_cons]
    split
    · rcases ih (kv.1, kv.2.logIndex) with h | ⟨resp, hmem, hidx⟩
      · right
        refine ⟨kv.2, ?_, ?_⟩
        · rw [h]; exact List.mem_cons_self _ _
        · rw [h]
      · exact Or.inr ⟨resp, List.mem_cons_of_mem _ hmem, hidx⟩
    · rcases ih acc with h | ⟨resp, hmem, hidx⟩
      · exact Or.inl h
      · exact Or.inr ⟨resp, List.mem_cons_of_mem _ hmem, hidx⟩

theorem leaderFold_mem (m : List (Nat × ChannelLastLogInfoResponse)) :
    leaderFold m = (0, 0) ∨
      ∃ resp, ((leaderFold m).1, resp) ∈ m ∧ resp.logIndex = (leaderFold m).2 := by
  unfold leaderFold
  exact leaderFold_mem_general m (0, 0)

/-- A found `lookupResp` entry is a member keyed by the node. -/
theorem lookupResp_some {nodeId : Nat} {m : List (Nat × ChannelLastLogInfoResponse)}
    {resp : ChannelLastLogInfoResponse} (h : lookupResp nodeId m = some resp) :
    (nodeId, resp) ∈ m := by
  unfold lookupResp at h
  cases hf : m.find? (fun kv => decide (kv.1 = nodeId)) with
  | none => rw [hf] at h; cases h
  | some kv =>
    rw [hf] at h
    have hm := List.mem_of_find?_eq_some hf
    have hp := List.find?_some hf
    simp only [decide_eq_true_eq] at hp
    simp only [Option.map_some'] at h
    cases h
    rw [← hp]
    exact hm

theorem lookupResp_none {nodeId : Nat} {m : List (Nat × ChannelLastLogInfoResponse)}
    (h : lookupResp nodeId m = none) :
    ∀ kv ∈ m, kv.1 ≠ nodeId := by
  unfold lookupResp at h
  cases hf : m.find? (fun kv => decide (kv.1 = nodeId)) with
  | none =>
    intro kv hkv
    have := List.find?_eq_none.1 hf kv hkv
    simpa using this
  | some kv => rw [hf] at h; cases h

/-- When the election succeeds, the elected node's response carries the
highest log index in the gathered map. -/
theorem channelLeader_max {selfId L : Nat}
    {m : List (Nat × ChannelLastLogInfoResponse)}
    (h : channelLeaderIDByLogInfo selfId m = some L) (hL : L ≠ 0) :
    ∃ resp, (L, resp) ∈ m ∧ resp.logIndex = maxLogIndex m := by
  unfold channelLeaderIDByLogInfo at h
  by_cases hp : (leaderFold m).1 ≠ selfId
  · rw [if_pos hp] at h
    split at h
    · exact absurd h (by simp)
    · rename_i resp heq
      split at h
      · rename_i hge
        injection h with h
        subst h
        refine ⟨resp, lookupResp_some heq, ?_⟩
        have h1 : resp.logIndex ≤ maxLogIndex m :=
          mem_le_maxLog m (_, resp) (lookupResp_some heq)
        rw [leaderFold_snd] at hge
        omega
      · injection h with h
        subst h
        rcases leaderFold_mem m with hz | ⟨resp2, hmem, hidx⟩
        · exact absurd (congrArg Prod.fst hz) hL
        · exact ⟨resp2, hmem, by rw [hidx, leaderFold_snd]⟩
  · rw [if_neg hp] at h
    injection h with h
    subst h
    rcases leaderFold_mem m with hz | ⟨resp, hmem, hidx⟩
    · exact absurd (congrArg Prod.fst hz) hL
    · exact ⟨resp, hmem, by rw [hidx, leaderFold_snd]⟩

/-- The tie-break: when the current node's response is at least as high as
every gathered log index, the current node is elected. -/
theorem channelLeader_tiebreak {selfId : Nat}
    {m : List (Nat × ChannelLastLogInfoResponse)}
    {sresp : ChannelLastLogInfoResponse}
    (hlook : lookupResp selfId m = some sresp)
    (hge : sresp.logIndex ≥ maxLogIndex m) :
    channelLeaderIDByLogInfo selfId m = some selfId := by
  unfold channelLeaderIDByLogInfo
  by_cases hp : (leaderFold m).1 ≠ selfId
  · rw [if_pos hp, hlook]
    have hge2 : (leaderFold m).2 ≤ sresp.logIndex := by
      rw [leaderFold_snd]
      exact hge
    simp [hge2]
  · rw [if_neg hp]
    push_neg at hp
    rw [hp]

/-- C2: the slot leader's channel election requires at least
`quorum = ⌊replicaCount/2⌋ + 1` last-log-index responses (1 in a
single-node cluster) or it fails with an error; on success the elected
node's log index is the highest gathered, the current node wins whenever
its own response is at least as high, and the placement saved by
`ChannelClusterStorage.Save` carries exactly `term + 1`. -/
theorem c2_channel_leader_election (selfId : Nat) (isSingleNode : Bool)
    (channelMaxReplicaCount : Nat) (online : Nat → Bool) (selfLastIndex : Nat)
    (remote : Nat → Option ChannelLastLogInfoResponse)
    (cfg : ChannelClusterConfig) :
    (quorum true channelMaxReplicaCount = 1 ∧
      quorum false channelMaxReplicaCount = channelMaxReplicaCount / 2 + 1) ∧
    ((requestChannelLastLogInfos selfId online selfLastIndex remote
        cfg.replicas).length < quorum isSingleNode channelMaxReplicaCount →
      ∃ e, electionCore selfId isSingleNode channelMaxReplicaCount online
          selfLastIndex remote cfg = Except.error e) ∧
    (∀ cfg', electionCore selfId isSingleNode channelMaxReplicaCount online
        selfLastIndex remote cfg = Except.ok cfg' →
      cfg'.term = cfg.term + 1 ∧
      cfg'.replicas = cfg.replicas ∧
      cfg'.leaderId ≠ 0 ∧
      (∃ resp, (cfg'.leaderId, resp) ∈
          requestChannelLastLogInfos selfId online selfLastIndex remote
            cfg.replicas ∧
        resp.logIndex = maxLogIndex (requestChannelLastLogInfos selfId online
          selfLastIndex remote cfg.replicas)) ∧
      (∀ sresp, lookupResp selfId (requestChannelLastLogInfos selfId online
          selfLastIndex remote cfg.replicas) = some sresp →
        sresp.logIndex ≥ maxLogIndex (requestChannelLastLogInfos selfId online
          selfLastIndex remote cfg.replicas) →
        cfg'.leaderId = selfId)) := by
  refine ⟨⟨rfl, rfl⟩, ?_, ?_⟩
  · intro hlen
    cases hc : checkOnlineReplicaCount selfId online cfg.replicas
        (quorum isSingleNode channelMaxReplicaCount) with
    | false =>
      exact ⟨"online replica count is not enough, checkOnlineReplicaCount failed",
        by simp [electionCore, hc]⟩
    | true =>
      exact ⟨"online replica count is not enough",
        by simp [electionCore, hc, hlen]⟩
  · intro cfg' hok
    simp only [electionCore] at hok
    split at hok
    · exact absurd hok (by simp)
    · split at hok
      · exact absurd hok (by simp)
      · rename_i hlen
        split at hok
        · exact absurd hok (by simp)
        · rename_i L hL
          split at hok
          · exact absurd hok (by simp)
          · rename_i hL0
            injection hok with hok
            subst hok
            refine ⟨rfl, rfl, hL0, channelLeader_max hL hL0, ?_⟩
            intro sresp hlook hge
            have := channelLeader_tiebreak hlook hge
            rw [hL] at this
            injection this

/-- Witness for C2 at a two-replica placement where the remote replica
holds the higher log. -/
theorem c2_channel_leader_election_witness :
    (quorum true 3 = 1 ∧ quorum false 3 = 3 / 2 + 1) ∧
    ((requestChannelLastLogInfos 1 (fun _ => true) 3
        (fun n => if n = 2 then some { logIndex := 5 } else none)
        ({ replicas := [1, 2] } : ChannelClusterConfig).replicas).length <
        quorum false 3 →
      ∃ e, electionCore 1 false 3 (fun _ => true) 3
          (fun n => if n = 2 then some { logIndex := 5 } else none)
          { replicas := [1, 2] } = Except.error e) ∧
    (∀ cfg', electionCore 1 false 3 (fun _ => true) 3
        (fun n => if n = 2 then some { logIndex := 5 } else none)
        { replicas := [1, 2] } = Except.ok cfg' →
      cfg'.term = ({ replicas := [1, 2] } : ChannelClusterConfig).term + 1 ∧
      cfg'.replicas = ({ replicas := [1, 2] } : ChannelClusterConfig).replicas ∧
      cfg'.leaderId ≠ 0 ∧
      (∃ resp, (cfg'.leaderId, resp) ∈
          requestChannelLastLogInfos 1 (fun _ => true) 3
            (fun n => if n = 2 then some { logIndex := 5 } else none)
            ({ replicas := [1, 2] } : ChannelClusterConfig).replicas ∧
        resp.logIndex = maxLogIndex (requestChannelLastLogInfos 1 (fun _ => true) 3
          (fun n => if n = 2 then some { logIndex := 5 } else none)
          ({ replicas := [1, 2] } : ChannelClusterConfig).replicas)) ∧
      (∀ sresp, lookupResp 1 (requestChannelLastLogInfos 1 (fun _ => true) 3
          (fun n => if n = 2 then some { logIndex := 5 } else none)
          ({ replicas := [1, 2] } : ChannelClusterConfig).replicas) = some sresp →
        sresp.logIndex ≥ maxLogIndex (requestChannelLastLogInfos 1 (fun _ => true) 3
          (fun n => if n = 2 then some { logIndex := 5 } else none)
          ({ replicas := [1, 2] } : ChannelClusterConfig).replicas) →
        cfg'.leaderId = 1)) :=
  c2_channel_leader_election 1 false 3 (fun _ => true) 3
    (fun n => if n = 2 then some { logIndex := 5 } else none) { replicas := [1, 2] }

/-- C10: when the gathered map has no entry for the current node and the
fold's winner therefore differs from it, `channelLeaderIDByLogInfo`
dereferences the missing (nil) entry and faults; and
`requestChannelLastLogInfos` produces exactly such a map whenever the
current node is reported offline or is not among the channel's replicas. -/
theorem c10_nil_self_response (selfId : Nat) (hself : selfId ≠ 0)
    (m : List (Nat × ChannelLastLogInfoResponse))
    (hmiss : lookupResp selfId m = none) :
    channelLeaderIDByLogInfo selfId m = none ∧
    (∀ online selfLastIndex remote replicas, online selfId = false →
      lookupResp selfId (requestChannelLastLogInfos selfId online selfLastIndex
        remote replicas) = none) ∧
    (∀ online selfLastIndex remote replicas, selfId ∉ replicas →
      lookupResp selfId (requestChannelLastLogInfos selfId online selfLastIndex
        remote replicas) = none) := by
  have hkeys : ∀ kv ∈ m, kv.1 ≠ selfId := lookupResp_none hmiss
  refine ⟨?_, ?_, ?_⟩
  · unfold channelLeaderIDByLogInfo
    have hfold : (leaderFold m).1 ≠ selfId := by
      rcases leaderFold_mem m with hz | ⟨resp, hmem, _⟩
      · rw [congrArg Prod.fst hz]
        exact fun h => hself h.symm
      · exact hkeys _ hmem
    rw [if_pos hfold, hmiss]
  · intro online selfLastIndex remote replicas hoff
    unfold lookupResp
    rw [List.find?_eq_none.2]
    · rfl
    · intro kv hkv
      simp only [decide_eq_true_eq]
      rcases List.mem_filterMap.1 hkv with ⟨rid, _, hrid⟩
      by_cases hon : online rid
      · simp only [hon, Bool.not_true, if_false] at hrid
        by_cases hr : rid = selfId
        · rw [if_pos hr] at hrid
          rw [hr, hoff] at hon
          cases hon
        · rw [if_neg hr] at hrid
          cases hrem : remote rid with
          | none => rw [hrem] at hrid; cases hrid
          | some resp =>
            rw [hrem] at hrid
            injection hrid with hrid
            rw [← hrid]
            exact hr
      · simp only [Bool.not_eq_true] at hon
        rw [hon] at hrid
        cases hrid
  · intro online selfLastIndex remote replicas hnot
    unfold lookupResp
    rw [List.find?_eq_none.2]
    · rfl
    · intro kv hkv
      simp only [decide_eq_true_eq]
      rcases List.mem_filterMap.1 hkv with ⟨rid, hrmem, hrid⟩
      by_cases hon : online rid
      · simp only [hon, Bool.not_true, if_false] at hrid
        by_cases hr : rid = selfId
        · exact absurd (hr ▸ hrmem) hnot
        · rw [if_neg hr] at hrid
          cases hrem : remote rid with
          | none => rw [hrem] at hrid; cases hrid
          | some resp =>
            rw [hrem] at hrid
            injection hrid with hrid
            rw [← hrid]
            exact hr
      · simp only [Bool.not_eq_true] at hon
        rw [hon] at hrid
        cases hrid

/-- Witness for C10 at a map holding only node 2's response. -/
theorem c10_nil_self_response_witness :
    (1 : Nat) ≠ 0 ∧
    lookupResp 1 [(2, { logIndex := 5 })] = none ∧
    (channelLeaderIDByLogInfo 1 [(2, { logIndex := 5 })] = none ∧
    (∀ online selfLastIndex remote replicas, online 1 = false →
      lookupResp 1 (requestChannelLastLogInfos 1 online selfLastIndex
        remote replicas) = none) ∧
    (∀ online selfLastIndex remote replicas, (1 : Nat) ∉ replicas →
      lookupResp 1 (requestChannelLastLogInfos 1 online selfLastIndex
        remote replicas) = none)) :=
  ⟨by decide, rfl, c10_nil_self_response 1 (by decide) [(2, { logIndex := 5 })] rfl⟩

/-! ## Replica state machine (src/unnamed/part_003, package replica)

The claims only exercise `Replica.Tick` and the helpers it can reach
(`tickElection`, `tickHeartbeat`, `hup`/`campaign`, `becomeCandidate`,
`reset`, `setSpeedLevel`, `sendPing`, the message constructors).  The
`Step` dispatcher is code of this repository not under src/; the two
self-messages `Tick` can raise — `MsgHup` and `MsgBeat` — are modelled from
the spec's operation list (`Hup` starts the election; `Beat` makes the
leader ping).  `globalRand.Intn` is modelled by the state's `randNext`. -/

/-- `replica.Role`. -/
inductive RRole where
  | unknown
  | leader
  | follower
  | candidate
  | learner
deriving Repr, DecidableEq

/-- `replica.Status`. -/
inductive RStatus where
  | uninitialized
  | initing
  | logConflictCheck
  | ready
deriving Repr, DecidableEq

/-- `replica.SpeedLevel`. -/
inductive SpeedLevel where
  | fast
  | middle
  | slow
  | slowest
  | stop
deriving Repr, DecidableEq

/-- The `replica.Message` types reachable from `Tick`. -/
inductive RMsgType where
  | msgSyncTimeout
  | msgVoteReq
  | msgVoteResp
  | msgPing
  | msgSpeedLevelChange
deriving Repr, DecidableEq

/-- `replica.Message`, restricted to the fields the reachable constructors
set.  `logs` holds `(index, term)` pairs. -/
structure RMessage where
  msgType : RMsgType
  fromId : Nat := 0
  toId : Nat := 0
  term : Nat := 0
  index : Nat := 0
  committedIndex : Nat := 0
  speedLevel : SpeedLevel := SpeedLevel.fast
  confVersion : Nat := 0
  logs : List (Nat × Nat) := []
deriving Repr, DecidableEq

/-- `replica.SyncInfo`. -/
structure SyncInfo where
  lastSyncIndex : Nat := 0
  syncTick : Nat := 0
deriving Repr, DecidableEq

/-- The replica options `Tick` consumes. -/
structure ReplicaOpts where
  nodeId : Nat := 0
  syncIntervalTick : Nat := 0
  electionOn : Bool := false
  electionIntervalTick : Nat := 0
  heartbeatIntervalTick : Nat := 0
  learnerToTimeoutTick : Nat := 0
deriving Repr, DecidableEq

/-- `To == All` broadcast sentinel (2^64 − 1 in the source). -/
def AllId : Nat := 18446744073709551615

/-- `replica.Replica`, restricted to the fields `Tick` and its callees
touch.  `lastLogIndex`/`lastLogTerm`/`committedIndex` stand for the
`replicaLog` fields read by the message constructors; `cfgVersion`,
`cfgReplicas`, `cfgLearners` for the current `Config`; `replicas` is the
replica set without the local node. -/
structure Replica where
  opts : ReplicaOpts
  nodeId : Nat := 0
  role : RRole := RRole.unknown
  status : RStatus := RStatus.uninitialized
  term : Nat := 0
  leader : Nat := 0
  syncTick : Nat := 0
  syncIntervalTick : Nat := 0
  syncing : Bool := false
  logConflictCheckTick : Nat := 0
  electionElapsed : Nat := 0
  heartbeatElapsed : Nat := 0
  randomizedElectionTimeout : Nat := 0
  voteFor : Nat := 0
  votes : List (Nat × Bool) := []
  msgs : List RMessage := []
  lastLogIndex : Nat := 0
  lastLogTerm : Nat := 0
  committedIndex : Nat := 0
  cfgVersion : Nat := 0
  cfgReplicas : List Nat := []
  cfgLearners : List Nat := []
  replicas : List Nat := []
  speedLevel : SpeedLevel := SpeedLevel.fast
  isRoleTransitioning : Bool := false
  roleTransitioningTimeoutTick : Nat := 0
  lastSyncInfoMap : List (Nat × SyncInfo) := []
  stopPropose : Bool := false
  storaging : Bool := false
  applying : Bool := false
  randNext : Nat := 0
deriving Repr, DecidableEq

/-- `Replica.send`: queue an outgoing message. -/
def Replica.send (r : Replica) (m : RMessage) : Replica :=
  { r with msgs := r.msgs ++ [m] }

/-- `Replica.newSyncTimeoutMsg`. -/
def Replica.newSyncTimeoutMsg (r : Replica) : RMessage :=
  { msgType := RMsgType.msgSyncTimeout
    fromId := r.nodeId
    toId := r.nodeId
    index := r.lastLogIndex + 1 }

/-- `Replica.newPing`. -/
def Replica.newPing (r : Replica) (toNode : Nat) : RMessage :=
  { msgType := RMsgType.msgPing
    fromId := r.nodeId
    toId := toNode
    term := r.term
    index := r.lastLogIndex
    committedIndex := r.committedIndex
    speedLevel := r.speedLevel
    confVersion := r.cfgVersion }

/-- `Replica.newMsgVoteReq`. -/
def Replica.newMsgVoteReq (r : Replica) (nodeId : Nat) : RMessage :=
  { msgType := RMsgType.msgVoteReq
    fromId := r.opts.nodeId
    toId := nodeId
    term := r.term
    index := r.lastLogIndex
    logs := [(r.lastLogIndex, r.lastLogTerm)] }

/-- `Replica.setSpeedLevel`: pick the sync interval for the level, emit a
`MsgSpeedLevelChange` on an actual change, record the level. -/
def Replica.setSpeedLevel (r : Replica) (level : SpeedLevel) : Replica :=
  let r :=
    { r with syncIntervalTick :=
        match level with
        | SpeedLevel.fast => r.opts.syncIntervalTick
        | SpeedLevel.middle => r.opts.syncIntervalTick * 2
        | SpeedLevel.slow => r.opts.syncIntervalTick * 4
        | SpeedLevel.slowest => r.opts.syncIntervalTick * 8
        | SpeedLevel.stop => r.opts.syncIntervalTick * 100000 }
  let r :=
    if level ≠ r.speedLevel then
      r.send { msgType := RMsgType.msgSpeedLevelChange, speedLevel := level }
    else r
  { r with speedLevel := level }

/-- `Replica.resetRandomizedElectionTimeout`; `globalRand.Intn` is modelled
by `randNext % ElectionIntervalTick`. -/
def Replica.resetRandomizedElectionTimeout (r : Replica) : Replica :=
  { r with randomizedElectionTimeout :=
      r.opts.electionIntervalTick + r.randNext % r.opts.electionIntervalTick }

/-- `Replica.reset`. -/
def Replica.reset (r : Replica) (term : Nat) : Replica :=
  let r :=
    { r with
      term := term
      voteFor := 0
      votes := []
      msgs := []
      stopPropose := false
      isRoleTransitioning := false
      roleTransitioningTimeoutTick := 0
      leader := 0
      electionElapsed := 0
      heartbeatElapsed := 0 }
  let r := r.setSpeedLevel SpeedLevel.fast
  let r := r.resetRandomizedElectionTimeout
  { r with storaging := false, applying := false }

/-- `Replica.becomeCandidateWithTerm`.  The source panics on the
`leader → candidate` transition; `Tick` reaches this only through
`tickElection`, which is installed for followers and candidates, so that
branch is left as the unchanged state. -/
def Replica.becomeCandidateWithTerm (r : Replica) (term : Nat) : Replica :=
  if r.role = RRole.leader then r
  else
    let r := r.reset term
    { r with voteFor := r.opts.nodeId, leader := 0, role := RRole.candidate }

/-- `Replica.becomeCandidate`. -/
def Replica.becomeCandidate (r : Replica) : Replica :=
  r.becomeCandidateWithTerm (r.term + 1)

/-- `Replica.campaign`: become candidate, vote for self, broadcast
`VoteReq` to the other replicas. -/
def Replica.campaign (r : Replica) : Replica :=
  let r := r.becomeCandidate
  r.cfgReplicas.foldl (fun r nodeId =>
    if nodeId = r.opts.nodeId then
      r.send
        { msgType := RMsgType.msgVoteResp
          toId := nodeId
          fromId := nodeId
          term := r.term }
    else r.send (r.newMsgVoteReq nodeId)) r

/-- `Replica.hup`. -/
def Replica.hup (r : Replica) : Replica :=
  r.campaign

/-- Modelled from the spec: the `Step` dispatcher is absent from src/; per
the spec's operation list, a self-addressed `Hup` starts the election
(`hup`). -/
def Replica.stepHup (r : Replica) : Replica :=
  r.hup

/-- `Replica.sendPing`: only a leader pings; `All` fans out to the replica
set and the learners, skipping the local node. -/
def Replica.sendPing (r : Replica) (toNode : Nat) : Replica :=
  if r.role ≠ RRole.leader then r
  else if toNode ≠ AllId then r.send (r.newPing toNode)
  else
    let r := r.replicas.foldl (fun r replicaId =>
      if replicaId = r.opts.nodeId then r else r.send (r.newPing replicaId)) r
    if r.cfgLearners.length > 0 then
      r.cfgLearners.foldl (fun r replicaId =>
        if replicaId = r.opts.nodeId then r else r.send (r.newPing replicaId)) r
    else r

/-- Modelled from the spec: the `Step` dispatcher is absent from src/; per
the spec's operation list, `Beat` makes the leader ping the addressee. -/
def Replica.stepBeat (r : Replica) (toNode : Nat) : Replica :=
  r.sendPing toNode

/-- `Replica.tickElection`. -/
def Replica.tickElection (r : Replica) : Replica :=
  if !r.opts.electionOn then r
  else
    let r := { r with electionElapsed := r.electionElapsed + 1 }
    if r.electionElapsed ≥ r.randomizedElectionTimeout then
      ({ r with electionElapsed := 0 } : Replica).stepHup
    else r

/-- Update one follower's `SyncTick` in the leader's sync map. -/
def setSyncTick (m : List (Nat × SyncInfo)) (nodeId : Nat) (v : Nat) :
    List (Nat × SyncInfo) :=
  m.map (fun kv => if kv.1 = nodeId then (kv.1, { kv.2 with syncTick := v }) else kv)

/-- The `else` branch of `tickHeartbeat` (election off): bump each
follower's `SyncTick`; at the interval reset it and beat that follower. -/
def Replica.tickHeartbeatSyncs (r : Replica) : Replica :=
  r.lastSyncInfoMap.foldl (fun acc kv =>
    if kv.2.syncTick + 1 ≥ acc.syncIntervalTick then
      ({ acc with lastSyncInfoMap := setSyncTick acc.lastSyncInfoMap kv.1 0 }
        : Replica).stepBeat kv.1
    else
      { acc with
        lastSyncInfoMap := setSyncTick acc.lastSyncInfoMap kv.1 (kv.2.syncTick + 1) }) r

/-- `Replica.tickHeartbeat`. -/
def Replica.tickHeartbeat (r : Replica) : Replica :=
  if r.role ≠ RRole.leader then r
  else
    let r :=
      if r.isRoleTransitioning then
        let r :=
          { r with roleTransitioningTimeoutTick := r.roleTransitioningTimeoutTick + 1 }
        if r.roleTransitioningTimeoutTick ≥ r.opts.learnerToTimeoutTick then
          { r with isRoleTransitioning := false }
        else r
      else r
    if r.opts.electionOn then
      let r :=
        { r with
          heartbeatElapsed := r.heartbeatElapsed + 1
          electionElapsed := r.electionElapsed + 1 }
      let r :=
        if r.electionElapsed ≥ r.opts.electionIntervalTick then
          { r with electionElapsed := 0 }
        else r
      if r.heartbeatElapsed ≥ r.opts.heartbeatIntervalTick then
        ({ r with heartbeatElapsed := 0 } : Replica).stepBeat AllId
      else r
    else r.tickHeartbeatSyncs

/-- The follower/learner branch of `Replica.Tick` (part_003 lines
1298–1315): in `Ready` status bump `syncTick`, and past
`5·syncIntervalTick` emit `MsgSyncTimeout`, clear `syncing` and reset
`syncTick`; in `LogConflictCheck` status bump the conflict-check tick. -/
def Replica.tickSync (r : Replica) : Replica :=
  if r.role = RRole.follower ∨ r.role = RRole.learner then
    if r.status = RStatus.ready then
      let r := { r with syncTick := r.syncTick + 1 }
      if r.syncTick > r.syncIntervalTick * 5 ∧ r.status = RStatus.ready then
        let r := r.send r.newSyncTimeoutMsg
        { r with syncing := false, syncTick := 0 }
      else r
    else if r.status = RStatus.logConflictCheck then
      { r with logConflictCheckTick := r.logConflictCheckTick + 1 }
    else r
  else r

/-- The trailing `if r.tickFnc != nil { r.tickFnc() }`: `tickFnc` is
`tickElection` for followers and candidates, `tickHeartbeat` for leaders,
and nil for learners and uninitialized replicas. -/
def Replica.roleTickFn (r : Replica) : Replica :=
  match r.role with
  | RRole.follower => r.tickElection
  | RRole.candidate => r.tickElection
  | RRole.leader => r.tickHeartbeat
  | _ => r

/-- `Replica.Tick`. -/
def Replica.tick (r : Replica) : Replica :=
  r.tickSync.roleTickFn

/-- C8: a follower in `Ready` status that is syncing and whose `syncTick`
passes `5·syncIntervalTick` without a `SyncResp` emits a `MsgSyncTimeout`
self-message, clears `syncing` and resets `syncTick` to 0, so the next
sync gate (`syncTick ≥ syncIntervalTick ∧ ¬syncing`) can rearm a fresh
`SyncReq`.  Stated for replicas with the internal election off (channel
and slot shards whose leader is appointed): with `ElectionOn` a
simultaneous election timeout would go through the modelled `Hup` dispatch
and `reset`, which drops pending messages. -/
theorem c8_sync_timeout (r : Replica)
    (hrole : r.role = RRole.follower)
    (hstatus : r.status = RStatus.ready)
    (hsyncing : r.syncing = true)
    (helection : r.opts.electionOn = false)
    (htimeout : r.syncTick + 1 > r.syncIntervalTick * 5) :
    r.tick.syncing = false ∧ r.tick.syncTick = 0 ∧
      r.newSyncTimeoutMsg ∈ r.tick.msgs := by
  unfold Replica.tick Replica.tickSync Replica.roleTickFn Replica.tickElection
    Replica.send Replica.newSyncTimeoutMsg
  simp [hrole, hstatus, helection, htimeout]

/-- Witness for C8 at a concrete timed-out syncing follower. -/
def c8Replica : Replica :=
  { opts := { nodeId := 2, syncIntervalTick := 10 }
    nodeId := 2
    role := RRole.follower
    status := RStatus.ready
    leader := 1
    syncing := true
    syncTick := 51
    syncIntervalTick := 10
    lastLogIndex := 7 }

/-- Witness for C8. -/
theorem c8_sync_timeout_witness :
    c8Replica.role = RRole.follower ∧
    c8Replica.status = RStatus.ready ∧
    c8Replica.syncing = true ∧
    c8Replica.opts.electionOn = false ∧
    c8Replica.syncTick + 1 > c8Replica.syncIntervalTick * 5 ∧
    (c8Replica.tick.syncing = false ∧ c8Replica.tick.syncTick = 0 ∧
      c8Replica.newSyncTimeoutMsg ∈ c8Replica.tick.msgs) :=
  ⟨rfl, rfl, rfl, rfl, by decide,
    c8_sync_timeout c8Replica rfl rfl rfl rfl (by decide)⟩

/-! ## stepWait (src/unnamed/part_000, `channelReactorSub.stepWait`)

`stepWait` runs two selects: first it offers the step request to
`stepChannelC` against the stopper, then it waits on the per-call `waitC`
against a 5-second context and the stopper.  Which arm each select takes
is scheduling (and wall-clock) nondeterminism, so the arms are inputs of
the embedding — the same way `proposeMessages` takes the forward response
as an input; the returned error is a function of the arms. -/

/-- The arm `stepWait`'s first select takes: the request is accepted onto
`stepChannelC`, or `stopper.ShouldStop()` fires. -/
inductive EnqueueArm where
  | enqueued
  | stopped
deriving Repr, DecidableEq

/-- The arm `stepWait`'s second select takes: the completion arrives on
`waitC`, the 5-second context expires, or `stopper.ShouldStop()` fires. -/
inductive WaitArm where
  | completion
  | timedOut
  | stopped
deriving Repr, DecidableEq

/-- The Go `error` values flowing through `stepWait`; a nil error is
`none` of `Option GoError`. -/
inductive GoError where
  | contextDeadlineExceeded
  | reactorStopped
  | stepError (e : String)
deriving Repr, DecidableEq

/-- The lane loop's handling of a step request (part_000 lines 369–375):
run `req.ch.step(req.action)` when the channel is set — `stepResult` is
that call's error — and reply with the resulting error on `waitC`. -/
def loopStepReply (hasCh : Bool) (stepResult : Option GoError) : Option GoError :=
  if hasCh then stepResult else none

/-- `channelReactorSub.stepWait` (part_000 lines 391–411) over the
arm-selection oracles.  `reply` is the value the loop sent on `waitC`. -/
def stepWait (enq : EnqueueArm) (wait : WaitArm) (reply : Option GoError) :
    Option GoError :=
  match enq with
  | EnqueueArm.stopped => some GoError.reactorStopped
  | EnqueueArm.enqueued =>
    match wait with
    | WaitArm.completion => reply
    | WaitArm.timedOut => some GoError.contextDeadlineExceeded
    | WaitArm.stopped => some GoError.reactorStopped

/-- C9: `stepWait` returns the step's error when the completion arrives
(the lane loop relays `ch.step(action)`'s error over `waitC`), the
context's timeout error when the wait select times out, and
`ErrReactorStopped` when the stopper fires — at the enqueue select as well
as at the wait select.  The 5-second magnitude of the timeout is
wall-clock and lives outside the embedding. -/
theorem c9_stepWait_contract (stepResult : Option GoError) (wait : WaitArm) :
    (stepWait EnqueueArm.enqueued WaitArm.completion
        (loopStepReply true stepResult) = stepResult) ∧
    (stepWait EnqueueArm.enqueued WaitArm.timedOut stepResult =
      some GoError.contextDeadlineExceeded) ∧
    (stepWait EnqueueArm.stopped wait stepResult =
      some GoError.reactorStopped) ∧
    (stepWait EnqueueArm.enqueued WaitArm.stopped stepResult =
      some GoError.reactorStopped) :=
  ⟨rfl, rfl, rfl, rfl⟩

/-- Witness for C7 (amended). -/
theorem c7_version_mono_witness :
    (∀ op ∈ [CemOp.saveAndVersionInc, CemOp.setTerm 3,
        CemOp.setNodeOnline 1 false], isUpdateClusterConfig op = false) ∧
    List.Chain' (· < ·)
      (({} : PbCluster).version ::
        (runCem {} [CemOp.saveAndVersionInc, CemOp.setTerm 3,
          CemOp.setNodeOnline 1 false]).2) :=
  ⟨by decide, c7_version_mono {} _ (by decide)⟩

end WuKongIM
